import Mathlib

/-!
WDW monorail sensors library: embedding and checked properties

Shallow embedding of `wdw_sensors.c` / `wdw_sensors.h` (C interface) and
`wdw_sensors.cpp` / `wdw_sensors.hpp` (C++ classes in namespace `WDW`).

Modelling decisions
* A C `float` field is a rational number. The library stores only the literal
  `0` in such fields and performs no floating-point arithmetic.
* A C `int` is an integer; the library only stores and copies `int` values.
* A `void*` handle is a natural number, `0` being `NULL`. The C heap is an
  association list from addresses to allocated blocks; `malloc` returns an
  address that is not `NULL` and not currently allocated, and always succeeds.
* A C function that touches the heap takes the heap and returns the new heap.
  Undefined behaviour (`free` of a pointer that is not allocated) is `none`.
-/

set_option linter.dupNamespace false

namespace WDWSensors

/-! ## Data returned by the C interface (`wdw_sensors.h`) -/

/-- C struct `DHT22Data` (wdw_sensors.h, lines 8-11). -/
structure DHT22Data where
  temperature : ℚ
  humidity : ℚ
deriving DecidableEq, Repr

/-- C struct `AccelData` (wdw_sensors.h, lines 20-24). -/
structure AccelData where
  x : ℚ
  y : ℚ
  z : ℚ
deriving DecidableEq, Repr

/-- C struct `GyroData` (wdw_sensors.h, lines 26-30). -/
structure GyroData where
  x : ℚ
  y : ℚ
  z : ℚ
deriving DecidableEq, Repr

/-- C struct `MPU6050Data` (wdw_sensors.h, lines 32-35). -/
structure MPU6050Data where
  accel : AccelData
  gyro : GyroData
deriving DecidableEq, Repr

/-! ## Heap objects (`wdw_sensors.c`) -/

/-- C struct `DHT22Impl` (wdw_sensors.c, lines 8-10). -/
structure DHT22Impl where
  pin : Int
deriving DecidableEq, Repr

/-- C struct `MPU6050Impl` (wdw_sensors.c, lines 30-33). -/
structure MPU6050Impl where
  address : Int
  bus : Int
deriving DecidableEq, Repr

/-- An allocated heap block: the library allocates blocks of two struct types. -/
inductive Block where
  | dht22 (impl : DHT22Impl)
  | mpu6050 (impl : MPU6050Impl)
deriving DecidableEq, Repr

/-- A `void*` value; `0` is `NULL`. -/
abbrev Ptr := Nat

/-- C typedef `void* DHT22` (wdw_sensors.h, line 13). -/
abbrev DHT22 := Ptr

/-- C typedef `void* MPU6050` (wdw_sensors.h, line 37). -/
abbrev MPU6050 := Ptr

/-- The C heap: the currently allocated blocks with their addresses. -/
structure Heap where
  cells : List (Ptr × Block)
deriving DecidableEq, Repr

/-- The heap with nothing allocated. -/
def Heap.empty : Heap := ⟨[]⟩

/-- Search of an address in a list of allocated blocks. -/
def lookupCells (p : Ptr) : List (Ptr × Block) → Option Block
  | [] => none
  | c :: cs => if c.1 = p then some c.2 else lookupCells p cs

/-- The block allocated at address `p`, if any. -/
def Heap.lookup (m : Heap) (p : Ptr) : Option Block := lookupCells p m.cells

/-- Whether `p` points to an allocated block. -/
def Heap.live (m : Heap) (p : Ptr) : Bool := (m.lookup p).isSome

/-- An address above every allocated address, hence neither `NULL` nor allocated. -/
def Heap.fresh (m : Heap) : Ptr := (m.cells.map Prod.fst).foldr max 0 + 1

/-- Function `malloc` followed by the stores that fill the new block: returns the
address of the new block and the extended heap. -/
def malloc (b : Block) (m : Heap) : Ptr × Heap :=
  (m.fresh, ⟨(m.fresh, b) :: m.cells⟩)

/-- The allocated blocks without the one at address `p`. -/
def removeCells (p : Ptr) : List (Ptr × Block) → List (Ptr × Block)
  | [] => []
  | c :: cs => if c.1 = p then removeCells p cs else c :: removeCells p cs

/-- Function `free`: a no-op on `NULL`, releases an allocated block, and is undefined
behaviour (`none`) on any other pointer. -/
def free (p : Ptr) (m : Heap) : Option Heap :=
  if p = 0 then some m
  else if m.live p then some ⟨removeCells p m.cells⟩
  else none

/-- The value of `impl->pin` for a handle pointing to a live `DHT22Impl`. -/
def Heap.pinOf (m : Heap) (sensor : DHT22) : Option Int :=
  match m.lookup sensor with
  | some (.dht22 impl) => some impl.pin
  | _ => none

/-! ## The C interface (`wdw_sensors.c`) -/

/-- Function `dht22_init` (wdw_sensors.c, lines 12-16): allocate a `DHT22Impl`, store
`pin` in it, return the pointer. -/
def dht22_init (pin : Int) (m : Heap) : DHT22 × Heap :=
  malloc (.dht22 { pin := pin }) m

/-- Function `dht22_read` (wdw_sensors.c, lines 18-23): the handle is cast and never
dereferenced, `data` is zero-initialised and returned. -/
def dht22_read (sensor : DHT22) (m : Heap) : DHT22Data × Heap :=
  let _impl : Ptr := sensor
  let data : DHT22Data := { temperature := 0, humidity := 0 }
  (data, m)

/-- Function `dht22_free` (wdw_sensors.c, lines 25-27). -/
def dht22_free (sensor : DHT22) (m : Heap) : Option Heap :=
  free sensor m

/-- Function `mpu6050_init` (wdw_sensors.c, lines 35-40): allocate an `MPU6050Impl`,
store address `0x68` and bus `1`, return the pointer. -/
def mpu6050_init (m : Heap) : MPU6050 × Heap :=
  malloc (.mpu6050 { address := 0x68, bus := 1 }) m

/-- Function `mpu6050_read` (wdw_sensors.c, lines 42-47): the handle is cast and never
dereferenced, `data` is zero-initialised and returned. -/
def mpu6050_read (sensor : MPU6050) (m : Heap) : MPU6050Data × Heap :=
  let _impl : Ptr := sensor
  let data : MPU6050Data :=
    { accel := { x := 0, y := 0, z := 0 }, gyro := { x := 0, y := 0, z := 0 } }
  (data, m)

/-- Function `mpu6050_free` (wdw_sensors.c, lines 49-51). -/
def mpu6050_free (sensor : MPU6050) (m : Heap) : Option Heap :=
  free sensor m

/-! ## The C++ classes (`wdw_sensors.hpp`, `wdw_sensors.cpp`) -/

namespace WDW

/-- Class `WDW::DHT22`: its only data member is `pin` (wdw_sensors.hpp, line 24). -/
structure DHT22 where
  pin : Int
deriving DecidableEq, Repr

namespace DHT22

/-- Struct `WDW::DHT22::Data` (wdw_sensors.hpp, lines 15-18). -/
structure Data where
  temperature : ℚ
  humidity : ℚ
deriving DecidableEq, Repr

/-- Constructor `DHT22::DHT22(int pin) : pin(pin) {}` (wdw_sensors.cpp, line 8). -/
def DHT22 (pin : Int) : WDW.DHT22 := { pin := pin }

/-- Method `DHT22::read` (wdw_sensors.cpp, lines 12-16); the object is not modified. -/
def read (_self : WDW.DHT22) : Data :=
  let data : Data := { temperature := 0, humidity := 0 }
  data

/-- Method `DHT22::read_fast` (wdw_sensors.cpp, lines 18-22); the object is not
modified. -/
def read_fast (_self : WDW.DHT22) : Data :=
  let data : Data := { temperature := 0, humidity := 0 }
  data

end DHT22

/-- Class `WDW::MPU6050`: it has no data member (wdw_sensors.hpp, lines 28-54). -/
structure MPU6050 where
deriving DecidableEq, Repr

namespace MPU6050

/-- Struct `WDW::MPU6050::AccelData` (wdw_sensors.hpp, lines 33-37). -/
structure AccelData where
  x : ℚ
  y : ℚ
  z : ℚ
deriving DecidableEq, Repr

/-- Struct `WDW::MPU6050::GyroData` (wdw_sensors.hpp, lines 39-43). -/
structure GyroData where
  x : ℚ
  y : ℚ
  z : ℚ
deriving DecidableEq, Repr

/-- Struct `WDW::MPU6050::Data` (wdw_sensors.hpp, lines 45-48). -/
structure Data where
  accel : AccelData
  gyro : GyroData
deriving DecidableEq, Repr

/-- Private method `void MPU6050::initialize()` (wdw_sensors.cpp, lines 31-33): its
body is empty. -/
def initializeDevice (self : WDW.MPU6050) : WDW.MPU6050 := self

/-- Constructor `MPU6050::MPU6050()` (wdw_sensors.cpp, lines 25-27): it calls the
private initialisation method. -/
def MPU6050 : WDW.MPU6050 := initializeDevice {}

/-- Method `MPU6050::read` (wdw_sensors.cpp, lines 35-39); the object is not
modified. -/
def read (_self : WDW.MPU6050) : Data :=
  let data : Data :=
    { accel := { x := 0, y := 0, z := 0 }, gyro := { x := 0, y := 0, z := 0 } }
  data

end MPU6050

end WDW

/-! ## Vocabulary of the specification

The source declares no error type, no frame type and no register block: its read
functions take a handle only and return a plain struct. The definitions below give
the specification's words a meaning, so that its sentences can be compared with
the functions above. -/

/-- Error taxonomy of the specification (section 7). -/
inductive SensorError where
  | ConfigError
  | TimingError
  | ChecksumError
  | DeviceNotFoundError
  | BusError
  | UseAfterFreeError
deriving DecidableEq, Repr

/-- A 40-bit frame of the single-wire protocol: humidity high and low byte,
temperature high and low byte, checksum (specification, section 4.1, step 2). -/
structure Frame where
  b0 : Fin 256
  b1 : Fin 256
  b2 : Fin 256
  b3 : Fin 256
  b4 : Fin 256
deriving DecidableEq, Repr

/-- Whether the fifth byte is the sum of the first four modulo 256. -/
def Frame.checksumOk (f : Frame) : Bool :=
  decide (f.b4.val = (f.b0.val + f.b1.val + f.b2.val + f.b3.val) % 256)

/-- Reference decoding of a frame, following the specification's words (section
4.1, steps 3 and 4): a checksum mismatch is `ChecksumError`; humidity is the 16-bit
big-endian value over 10; temperature is the low 15 bits over 10, negated when bit
15 is set. -/
def dht22_decode_spec (f : Frame) : Except SensorError DHT22Data :=
  if f.checksumOk then
    let rawHumidity : Nat := f.b0.val * 256 + f.b1.val
    let rawTemperature : Nat := f.b2.val * 256 + f.b3.val
    let magnitude : ℚ := ((rawTemperature &&& 0x7FFF : Nat) : ℚ) / 10
    .ok { temperature := if rawTemperature.testBit 15 then -magnitude else magnitude,
          humidity := (rawHumidity : ℚ) / 10 }
  else .error .ChecksumError

/-- The 14 contiguous register bytes starting at the accelerometer-data register
(specification, section 4.2). -/
abbrev RegisterBlock := Fin 14 → Fin 256

/-- A 16-bit big-endian two-complement value. -/
def raw16 (hi lo : Fin 256) : Int :=
  let v : Nat := hi.val * 256 + lo.val
  if v < 32768 then (v : Int) else (v : Int) - 65536

/-- Reference decoding of the register block, following the specification's words
(section 4.2) for the default ranges: accelerometer values over 16384, gyroscope
values over 131; bytes 6 and 7 hold the temperature, which the sample omits. -/
def mpu6050_decode_spec (r : RegisterBlock) : MPU6050Data :=
  { accel := { x := (raw16 (r 0) (r 1) : ℚ) / 16384,
               y := (raw16 (r 2) (r 3) : ℚ) / 16384,
               z := (raw16 (r 4) (r 5) : ℚ) / 16384 },
    gyro := { x := (raw16 (r 8) (r 9) : ℚ) / 131,
              y := (raw16 (r 10) (r 11) : ℚ) / 131,
              z := (raw16 (r 12) (r 13) : ℚ) / 131 } }

/-- Whether a pin lies in the range 0..53 of the specification (section 4.1). -/
def pinInRange (pin : Int) : Bool := decide (0 ≤ pin ∧ pin ≤ 53)

/-- Whether some live `DHT22Impl` block records `pin`. -/
def Heap.claimed (m : Heap) (pin : Int) : Bool :=
  m.cells.any fun c =>
    match c.2 with
    | .dht22 impl => decide (impl.pin = pin)
    | .mpu6050 _ => false

/-- What a caller of `dht22_init` receives, read as the specification's
`handle | error`: the C function returns the pointer and has no error channel. -/
def dht22_init_result (pin : Int) (m : Heap) : Except SensorError (DHT22 × Heap) :=
  .ok (dht22_init pin m)

/-- What a caller of `dht22_read` receives, read as the specification's
`Sample | error`: the C function returns the struct by value and has no error
channel. -/
def dht22_read_result (sensor : DHT22) (m : Heap) : Except SensorError DHT22Data :=
  .ok (dht22_read sensor m).1

/-- What a caller of `mpu6050_read` receives, read as the specification's
`Sample | error`: the C function returns the struct by value and has no error
channel. -/
def mpu6050_read_result (sensor : MPU6050) (m : Heap) : Except SensorError MPU6050Data :=
  .ok (mpu6050_read sensor m).1

/-- What a caller of `WDW::DHT22::read` receives, read as the specification's
`Sample | error`: the method returns the struct by value and throws nothing. -/
def WDW.DHT22.read_result (self : WDW.DHT22) : Except SensorError WDW.DHT22.Data :=
  .ok self.read

/-- A frame whose fifth byte is not the checksum of the first four. -/
def corruptedFrame : Frame := { b0 := 0, b1 := 0, b2 := 0, b3 := 0, b4 := 1 }

/-- A valid frame: humidity 65.2 %, temperature 35.1 degrees. -/
def warmFrame : Frame := { b0 := 0x02, b1 := 0x8C, b2 := 0x01, b3 := 0x5F, b4 := 0xEE }

/-- A valid frame with bit 15 of the temperature field set: humidity 65.2 %,
temperature -10.1 degrees. -/
def coldFrame : Frame := { b0 := 0x02, b1 := 0x8C, b2 := 0x80, b3 := 0x65, b4 := 0x73 }

/-- The register block of the specification's example: raw accelerometer X is
`0x1000`, every other byte is zero. -/
def quarterG : RegisterBlock := fun i => if i = 0 then 0x10 else 0

/-- The heap after `n` calls of `mpu6050_init`, starting from `m`. -/
def heapAfterInits : Nat → Heap → Heap
  | 0, m => m
  | n + 1, m => (mpu6050_init (heapAfterInits n m)).2

/-! ## Facts about the heap model -/

theorem le_foldr_max (l : List Nat) (a : Nat) (h : a ∈ l) : a ≤ l.foldr max 0 := by
  induction l with
  | nil => cases h
  | cons b t ih =>
    rcases List.mem_cons.mp h with rfl | h
    · exact le_max_left _ _
    · exact le_trans (ih h) (le_max_right _ _)

theorem Heap.lt_fresh (m : Heap) (c : Ptr × Block) (h : c ∈ m.cells) : c.1 < m.fresh := by
  have hc : c.1 ∈ m.cells.map Prod.fst := List.mem_map_of_mem Prod.fst h
  exact Nat.lt_succ_of_le (le_foldr_max _ _ hc)

theorem Heap.fresh_ne_zero (m : Heap) : m.fresh ≠ 0 := Nat.succ_ne_zero _

theorem lookupCells_eq_none (p : Ptr) (cs : List (Ptr × Block))
    (h : ∀ c ∈ cs, c.1 ≠ p) : lookupCells p cs = none := by
  induction cs with
  | nil => rfl
  | cons c t ih =>
    have hc : c.1 ≠ p := h c (List.mem_cons_self _ _)
    simp only [lookupCells, hc, if_false]
    exact ih fun d hd => h d (List.mem_cons_of_mem _ hd)

theorem Heap.lookup_fresh (m : Heap) : m.lookup m.fresh = none :=
  lookupCells_eq_none _ _ fun c hc => Nat.ne_of_lt (m.lt_fresh c hc)

theorem Heap.live_ne_fresh (m : Heap) (p : Ptr) (h : m.live p = true) : m.fresh ≠ p := by
  intro hp
  rw [← hp, Heap.live, m.lookup_fresh] at h
  cases h

theorem lookup_malloc_self (b : Block) (m : Heap) :
    (malloc b m).2.lookup (malloc b m).1 = some b := by
  simp [malloc, Heap.lookup, lookupCells]

theorem lookup_malloc_of_ne (b : Block) (m : Heap) (p : Ptr) (h : m.fresh ≠ p) :
    (malloc b m).2.lookup p = m.lookup p := by
  simp [malloc, Heap.lookup, lookupCells, h]

theorem lookupCells_removeCells_self (p : Ptr) (cs : List (Ptr × Block)) :
    lookupCells p (removeCells p cs) = none := by
  induction cs with
  | nil => rfl
  | cons c t ih =>
    by_cases hc : c.1 = p
    · simp only [removeCells, hc, if_true, ih]
    · simp only [removeCells, hc, if_false, lookupCells, ih]

theorem lookupCells_removeCells_of_ne (p q : Ptr) (cs : List (Ptr × Block)) (h : q ≠ p) :
    lookupCells q (removeCells p cs) = lookupCells q cs := by
  induction cs with
  | nil => rfl
  | cons c t ih =>
    by_cases hc : c.1 = p
    · have hq : c.1 ≠ q := fun e => h (e.symm.trans hc)
      simp only [removeCells, hc, if_true, ih, lookupCells]
      rw [if_neg (hc ▸ hq)]
    · by_cases hq : c.1 = q
      · simp only [removeCells, hc, if_false, lookupCells]
        simp only [hq, if_true]
      · simp only [removeCells, hc, if_false, lookupCells, hq, ih]

theorem free_of_live (p : Ptr) (m : Heap) (hp : p ≠ 0) (hl : m.live p = true) :
    free p m = some ⟨removeCells p m.cells⟩ := by
  simp [free, hp, hl]

theorem live_after_free (p : Ptr) (m m1 : Heap) (hp : p ≠ 0) (hl : m.live p = true)
    (hf : free p m = some m1) : m1.live p = false := by
  rw [free_of_live p m hp hl] at hf
  cases hf
  simp [Heap.live, Heap.lookup, lookupCells_removeCells_self]

theorem lookup_after_free (p q : Ptr) (m m1 : Heap) (hp : p ≠ 0) (hl : m.live p = true)
    (hf : free p m = some m1) (hq : q ≠ p) : m1.lookup q = m.lookup q := by
  rw [free_of_live p m hp hl] at hf
  cases hf
  exact lookupCells_removeCells_of_ne p q m.cells hq

theorem pinOf_dht22_init_self (pin : Int) (m : Heap) :
    (dht22_init pin m).2.pinOf (dht22_init pin m).1 = some pin := by
  simp only [Heap.pinOf, dht22_init, lookup_malloc_self]

theorem dht22_init_fst (pin : Int) (m : Heap) : (dht22_init pin m).1 = m.fresh := rfl

theorem live_dht22_init_self (pin : Int) (m : Heap) :
    (dht22_init pin m).2.live (dht22_init pin m).1 = true := by
  simp only [Heap.live, dht22_init, lookup_malloc_self, Option.isSome_some]

theorem pinOf_congr (m m1 : Heap) (p : Ptr) (h : m1.lookup p = m.lookup p) :
    m1.pinOf p = m.pinOf p := by
  simp only [Heap.pinOf, h]

theorem dht22_decode_spec_of_checksumOk (f : Frame) (h : f.checksumOk = true) :
    dht22_decode_spec f = .ok
      { temperature :=
          if (f.b2.val * 256 + f.b3.val).testBit 15
          then -(((f.b2.val * 256 + f.b3.val &&& 0x7FFF : Nat) : ℚ) / 10)
          else ((f.b2.val * 256 + f.b3.val &&& 0x7FFF : Nat) : ℚ) / 10,
        humidity := ((f.b0.val * 256 + f.b1.val : Nat) : ℚ) / 10 } := by
  simp only [dht22_decode_spec, h, if_true]

/-! ## The claims -/

/-- C1. Every read operation returns zeroed data: for every handle and every heap
`dht22_read` returns temperature 0 and humidity 0 and `mpu6050_read` returns the six
accelerometer and gyroscope components 0, in particular for the handles that
`dht22_init` (any pin) and `mpu6050_init` create; `DHT22::read`, `DHT22::read_fast`
and `MPU6050::read` return the same all-zero samples for every object. -/
theorem read_returns_zeroed_data :
    (∀ (sensor : DHT22) (m : Heap),
      (dht22_read sensor m).1 = { temperature := 0, humidity := 0 }) ∧
    (∀ (pin : Int) (m : Heap),
      (dht22_read (dht22_init pin m).1 (dht22_init pin m).2).1
        = { temperature := 0, humidity := 0 }) ∧
    (∀ (sensor : MPU6050) (m : Heap),
      (mpu6050_read sensor m).1
        = { accel := { x := 0, y := 0, z := 0 }, gyro := { x := 0, y := 0, z := 0 } }) ∧
    (∀ m : Heap,
      (mpu6050_read (mpu6050_init m).1 (mpu6050_init m).2).1
        = { accel := { x := 0, y := 0, z := 0 }, gyro := { x := 0, y := 0, z := 0 } }) ∧
    (∀ self : WDW.DHT22, self.read = { temperature := 0, humidity := 0 }) ∧
    (∀ self : WDW.DHT22, self.read_fast = { temperature := 0, humidity := 0 }) ∧
    (∀ self : WDW.MPU6050,
      self.read
        = { accel := { x := 0, y := 0, z := 0 }, gyro := { x := 0, y := 0, z := 0 } }) :=
  ⟨fun _ _ => rfl, fun _ _ => rfl, fun _ _ => rfl, fun _ => rfl,
    fun _ => rfl, fun _ => rfl, fun _ => rfl⟩

/-- C2, evaluated at the corrupted frame `00 00 00 00 01` (fifth byte 1, sum of the
first four bytes 0): the reference decoding of that frame is `ChecksumError` and no
sample, while `dht22_read` on the handle of `dht22_init(4)` and `DHT22::read` of
`WDW::DHT22(4)` return the sample with temperature 0 and humidity 0. -/
theorem dht22_read_ignores_corrupted_checksum :
    corruptedFrame.checksumOk = false ∧
    dht22_decode_spec corruptedFrame = .error .ChecksumError ∧
    (dht22_read (dht22_init 4 Heap.empty).1 (dht22_init 4 Heap.empty).2).1
      = { temperature := 0, humidity := 0 } ∧
    (WDW.DHT22.DHT22 4).read = { temperature := 0, humidity := 0 } ∧
    dht22_read_result (dht22_init 4 Heap.empty).1 (dht22_init 4 Heap.empty).2
      = .ok { temperature := 0, humidity := 0 } ∧
    dht22_read_result (dht22_init 4 Heap.empty).1 (dht22_init 4 Heap.empty).2
      ≠ dht22_decode_spec corruptedFrame ∧
    (WDW.DHT22.DHT22 4).read_result = .ok { temperature := 0, humidity := 0 } ∧
    (WDW.DHT22.DHT22 4).read_result ≠ .error .ChecksumError := by
  have hspec : dht22_decode_spec corruptedFrame = .error .ChecksumError := rfl
  refine ⟨rfl, hspec, rfl, rfl, rfl, ?_, rfl, ?_⟩
  · rw [hspec]
    intro h
    cases h
  · intro h
    cases h

/-- C3, evaluated at two valid frames. For `02 8C 01 5F EE` the reference formulas
give humidity 65.2 and temperature 35.1, for `02 8C 80 65 73` (bit 15 of the
temperature field set) humidity 65.2 and temperature -10.1; `dht22_read` on the
handle of `dht22_init(4)` and `DHT22::read` of `WDW::DHT22(4)` return humidity 0 and
temperature 0. -/
theorem dht22_read_does_not_decode_frame :
    warmFrame.checksumOk = true ∧
    dht22_decode_spec warmFrame = .ok { temperature := 351 / 10, humidity := 652 / 10 } ∧
    coldFrame.checksumOk = true ∧
    dht22_decode_spec coldFrame = .ok { temperature := -(101 / 10), humidity := 652 / 10 } ∧
    (dht22_read (dht22_init 4 Heap.empty).1 (dht22_init 4 Heap.empty).2).1
      = { temperature := 0, humidity := 0 } ∧
    (WDW.DHT22.DHT22 4).read = { temperature := 0, humidity := 0 } ∧
    dht22_read_result (dht22_init 4 Heap.empty).1 (dht22_init 4 Heap.empty).2
      ≠ dht22_decode_spec warmFrame ∧
    dht22_read_result (dht22_init 4 Heap.empty).1 (dht22_init 4 Heap.empty).2
      ≠ dht22_decode_spec coldFrame := by
  have hw : dht22_decode_spec warmFrame
      = .ok { temperature := 351 / 10, humidity := 652 / 10 } := by
    rw [dht22_decode_spec_of_checksumOk warmFrame rfl]
    have ht : warmFrame.b2.val * 256 + warmFrame.b3.val = 351 := rfl
    have hh : warmFrame.b0.val * 256 + warmFrame.b1.val = 652 := rfl
    have hb : (351 : Nat).testBit 15 = false := by decide
    have ha : (351 &&& 0x7FFF : Nat) = 351 := by decide
    rw [ht, hh, hb, ha]
    norm_num
  have hc : dht22_decode_spec coldFrame
      = .ok { temperature := -(101 / 10), humidity := 652 / 10 } := by
    rw [dht22_decode_spec_of_checksumOk coldFrame rfl]
    have ht : coldFrame.b2.val * 256 + coldFrame.b3.val = 32869 := rfl
    have hh : coldFrame.b0.val * 256 + coldFrame.b1.val = 652 := rfl
    have hb : (32869 : Nat).testBit 15 = true := by decide
    have ha : (32869 &&& 0x7FFF : Nat) = 101 := by decide
    rw [ht, hh, hb, ha]
    norm_num
  refine ⟨rfl, hw, rfl, hc, rfl, rfl, ?_, ?_⟩
  · rw [hw]
    simp only [dht22_read_result, dht22_read]
    intro h
    injection h with h
    injection h with h1 h2
    norm_num at h1
  · rw [hc]
    simp only [dht22_read_result, dht22_read]
    intro h
    injection h with h
    injection h with h1 h2
    norm_num at h1

/-- C4, evaluated after a free. After `dht22_init(4)` on the empty heap and
`dht22_free` on the returned handle, the block is released and the handle is no
longer live; `dht22_read` on that freed handle returns the sample with temperature
0 and humidity 0, not `UseAfterFreeError`. Likewise `mpu6050_read` on the handle of
`mpu6050_init` after `mpu6050_free` returns the all-zero sample. -/
theorem read_after_free_returns_zero_sample :
    (dht22_init 4 Heap.empty).1 = 1 ∧
    (dht22_init 4 Heap.empty).2.live 1 = true ∧
    dht22_free 1 (dht22_init 4 Heap.empty).2 = some Heap.empty ∧
    Heap.empty.live 1 = false ∧
    (dht22_read 1 Heap.empty).1 = { temperature := 0, humidity := 0 } ∧
    dht22_read_result 1 Heap.empty = .ok { temperature := 0, humidity := 0 } ∧
    dht22_read_result 1 Heap.empty ≠ .error .UseAfterFreeError ∧
    (mpu6050_init Heap.empty).1 = 1 ∧
    (mpu6050_init Heap.empty).2.live 1 = true ∧
    mpu6050_free 1 (mpu6050_init Heap.empty).2 = some Heap.empty ∧
    (mpu6050_read 1 Heap.empty).1
      = { accel := { x := 0, y := 0, z := 0 }, gyro := { x := 0, y := 0, z := 0 } } ∧
    mpu6050_read_result 1 Heap.empty
      = .ok { accel := { x := 0, y := 0, z := 0 }, gyro := { x := 0, y := 0, z := 0 } } ∧
    mpu6050_read_result 1 Heap.empty ≠ .error .UseAfterFreeError :=
  ⟨rfl, rfl, rfl, rfl, rfl, rfl, (by intro h; cases h), rfl, rfl, rfl, rfl, rfl,
    (by intro h; cases h)⟩

/-- C5, as stated, fails: `dht22_init(54)` and `dht22_init(-1)`, both out of the
range 0..53, return a live handle bound to the pin; and a second `dht22_init(4)`,
made while the handle of the first is live, returns a second live handle bound to
pin 4. None is `ConfigError`. -/
theorem dht22_init_config_error_counterexample :
    pinInRange 54 = false ∧
    dht22_init_result 54 Heap.empty = .ok (1, ⟨[(1, .dht22 { pin := 54 })]⟩) ∧
    dht22_init_result 54 Heap.empty ≠ .error .ConfigError ∧
    pinInRange (-1) = false ∧
    dht22_init_result (-1) Heap.empty = .ok (1, ⟨[(1, .dht22 { pin := -1 })]⟩) ∧
    (dht22_init 4 Heap.empty).2.claimed 4 = true ∧
    dht22_init_result 4 (dht22_init 4 Heap.empty).2
      = .ok (2, ⟨[(2, .dht22 { pin := 4 }), (1, .dht22 { pin := 4 })]⟩) ∧
    dht22_init_result 4 (dht22_init 4 Heap.empty).2 ≠ .error .ConfigError ∧
    (dht22_init 4 (dht22_init 4 Heap.empty).2).2.pinOf 1 = some 4 ∧
    (dht22_init 4 (dht22_init 4 Heap.empty).2).2.pinOf 2 = some 4 :=
  ⟨rfl, rfl, (by intro h; cases h), rfl, rfl, rfl, rfl, (by intro h; cases h), rfl, rfl⟩

/-- C5, amended. `dht22_init(pin)` never fails with `ConfigError`: for every pin,
inside or outside 0..53, and whether or not a live handle already holds the pin, it
returns a new non-null handle that was not live before, is live afterwards and is
bound to that pin, and every handle that was live keeps its block; the constructor
`WDW::DHT22(pin)` stores every pin likewise. -/
theorem dht22_init_always_succeeds (pin : Int) (m : Heap) :
    dht22_init_result pin m = .ok (dht22_init pin m) ∧
    dht22_init_result pin m ≠ .error .ConfigError ∧
    (dht22_init pin m).1 ≠ 0 ∧
    m.live (dht22_init pin m).1 = false ∧
    (dht22_init pin m).2.live (dht22_init pin m).1 = true ∧
    (dht22_init pin m).2.pinOf (dht22_init pin m).1 = some pin ∧
    (∀ p, m.live p = true → (dht22_init pin m).2.lookup p = m.lookup p) ∧
    (WDW.DHT22.DHT22 pin).pin = pin := by
  refine ⟨rfl, (by intro h; cases h), m.fresh_ne_zero, ?_, live_dht22_init_self pin m,
    pinOf_dht22_init_self pin m, ?_, rfl⟩
  · simp only [dht22_init_fst, Heap.live, m.lookup_fresh, Option.isSome_none]
  · intro p hp
    exact lookup_malloc_of_ne _ m p (m.live_ne_fresh p hp)

/-- C6, evaluated at the register block `10 00 00 ... 00`: the raw accelerometer X
value is `0x1000 = 4096`, which the reference formula decodes to 0.25 g, while
`mpu6050_read` on the handle of `mpu6050_init` and `MPU6050::read` return
`accel.x = 0`. -/
theorem mpu6050_read_does_not_decode_registers :
    raw16 (quarterG 0) (quarterG 1) = 4096 ∧
    (mpu6050_decode_spec quarterG).accel.x = 1 / 4 ∧
    (mpu6050_read (mpu6050_init Heap.empty).1 (mpu6050_init Heap.empty).2).1.accel.x = 0 ∧
    (WDW.MPU6050.MPU6050).read.accel.x = 0 ∧
    (mpu6050_read (mpu6050_init Heap.empty).1 (mpu6050_init Heap.empty).2).1.accel.x
      ≠ (mpu6050_decode_spec quarterG).accel.x := by
  have h : raw16 (quarterG 0) (quarterG 1) = 4096 := by decide
  have hx : (mpu6050_decode_spec quarterG).accel.x = 1 / 4 := by
    simp only [mpu6050_decode_spec, h]
    norm_num
  refine ⟨h, hx, rfl, rfl, ?_⟩
  rw [hx]
  simp only [mpu6050_read]
  norm_num

/-- C7. Every handle returned by `mpu6050_init` is bound to device address `0x68` on
bus index 1, in every heap and so after any number of earlier init calls; the
handle is not null, and the blocks of the handles that were live are unchanged. -/
theorem mpu6050_init_binds_address_and_bus (m : Heap) (n : Nat) :
    (mpu6050_init m).1 ≠ 0 ∧
    (mpu6050_init m).2.lookup (mpu6050_init m).1
      = some (.mpu6050 { address := 0x68, bus := 1 }) ∧
    (mpu6050_init (heapAfterInits n m)).2.lookup (mpu6050_init (heapAfterInits n m)).1
      = some (.mpu6050 { address := 0x68, bus := 1 }) ∧
    (∀ p, m.live p = true → (mpu6050_init m).2.lookup p = m.lookup p) := by
  refine ⟨m.fresh_ne_zero, lookup_malloc_self _ m, lookup_malloc_self _ _, ?_⟩
  intro p hp
  exact lookup_malloc_of_ne _ m p (m.live_ne_fresh p hp)

/-- C8. For two pins `p ≠ q` and every heap, `dht22_init(p)` followed by
`dht22_init(q)` both succeed: they return two distinct non-null live handles, the
first bound to `p` and the second to `q`. Creating the second handle leaves the pin
of the first unchanged, a read on either handle leaves the heap (hence both pins)
unchanged, and freeing either handle succeeds and leaves the pin of the other
unchanged. -/
theorem dht22_init_distinct_pins_independent (p q : Int) (_hpq : p ≠ q) (m : Heap) :
    let r1 := dht22_init p m
    let r2 := dht22_init q r1.2
    (r1.1 ≠ 0 ∧ r2.1 ≠ 0 ∧ r1.1 ≠ r2.1) ∧
    (r1.2.pinOf r1.1 = some p ∧ r2.2.pinOf r2.1 = some q ∧ r2.2.pinOf r1.1 = some p) ∧
    ((dht22_read r1.1 r2.2).2 = r2.2 ∧ (dht22_read r2.1 r2.2).2 = r2.2) ∧
    (∃ m3, dht22_free r2.1 r2.2 = some m3 ∧ m3.live r2.1 = false ∧
      m3.pinOf r1.1 = some p) ∧
    (∃ m3, dht22_free r1.1 r2.2 = some m3 ∧ m3.live r1.1 = false ∧
      m3.pinOf r2.1 = some q) := by
  intro r1 r2
  have ha0 : r1.1 ≠ 0 := m.fresh_ne_zero
  have hb0 : r2.1 ≠ 0 := r1.2.fresh_ne_zero
  have hal1 : r1.2.live r1.1 = true := live_dht22_init_self p m
  have hba : r2.1 ≠ r1.1 := r1.2.live_ne_fresh r1.1 hal1
  have hab : r1.1 ≠ r2.1 := fun e => hba e.symm
  have hpa : r1.2.pinOf r1.1 = some p := pinOf_dht22_init_self p m
  have hpb : r2.2.pinOf r2.1 = some q := pinOf_dht22_init_self q r1.2
  have hla : r2.2.lookup r1.1 = r1.2.lookup r1.1 := lookup_malloc_of_ne _ r1.2 r1.1 hba
  have hpa2 : r2.2.pinOf r1.1 = some p := (pinOf_congr _ _ _ hla).trans hpa
  have hbl2 : r2.2.live r2.1 = true := live_dht22_init_self q r1.2
  have hal2 : r2.2.live r1.1 = true := by
    simp only [Heap.live, hla]
    exact hal1
  refine ⟨⟨ha0, hb0, hab⟩, ⟨hpa, hpb, hpa2⟩, ⟨rfl, rfl⟩, ?_, ?_⟩
  · have hf := free_of_live r2.1 r2.2 hb0 hbl2
    refine ⟨_, hf, live_after_free _ _ _ hb0 hbl2 hf, ?_⟩
    exact (pinOf_congr _ _ _ (lookup_after_free _ _ _ _ hb0 hbl2 hf hab)).trans hpa2
  · have hf := free_of_live r1.1 r2.2 ha0 hal2
    refine ⟨_, hf, live_after_free _ _ _ ha0 hal2 hf, ?_⟩
    exact (pinOf_congr _ _ _ (lookup_after_free _ _ _ _ ha0 hal2 hf hba)).trans hpb

/-- Witness of C8, at pins 4 and 17 on the empty heap. -/
theorem dht22_init_distinct_pins_independent_witness :
    (4 : Int) ≠ 17 ∧
    (let r1 := dht22_init 4 Heap.empty
     let r2 := dht22_init 17 r1.2
     (r1.1 ≠ 0 ∧ r2.1 ≠ 0 ∧ r1.1 ≠ r2.1) ∧
     (r1.2.pinOf r1.1 = some 4 ∧ r2.2.pinOf r2.1 = some 17 ∧ r2.2.pinOf r1.1 = some 4) ∧
     ((dht22_read r1.1 r2.2).2 = r2.2 ∧ (dht22_read r2.1 r2.2).2 = r2.2) ∧
     (∃ m3, dht22_free r2.1 r2.2 = some m3 ∧ m3.live r2.1 = false ∧
       m3.pinOf r1.1 = some 4) ∧
     (∃ m3, dht22_free r1.1 r2.2 = some m3 ∧ m3.live r1.1 = false ∧
       m3.pinOf r2.1 = some 17)) :=
  ⟨by decide, dht22_init_distinct_pins_independent 4 17 (by decide) Heap.empty⟩

/-- C9. For every `WDW::DHT22` object, whatever its pin, `read_fast` returns exactly
the sample that `read` returns. -/
theorem read_fast_eq_read (self : WDW.DHT22) : self.read_fast = self.read := rfl

/-- C10. The C interface and the C++ classes agree: for every pin and heap,
`dht22_read(dht22_init(pin))` has the temperature and humidity of
`WDW::DHT22(pin).read()`, and `mpu6050_read(mpu6050_init())` has the six
accelerometer and gyroscope components of `WDW::MPU6050().read()`; neither
`dht22_read(dht22_init(pin))` nor `WDW::DHT22(pin).read()` depends on the pin. -/
theorem c_and_cpp_reads_agree (pin pin2 : Int) (m : Heap) :
    ((dht22_read (dht22_init pin m).1 (dht22_init pin m).2).1.temperature
        = (WDW.DHT22.DHT22 pin).read.temperature ∧
      (dht22_read (dht22_init pin m).1 (dht22_init pin m).2).1.humidity
        = (WDW.DHT22.DHT22 pin).read.humidity) ∧
    ((mpu6050_read (mpu6050_init m).1 (mpu6050_init m).2).1.accel.x
        = (WDW.MPU6050.MPU6050).read.accel.x ∧
      (mpu6050_read (mpu6050_init m).1 (mpu6050_init m).2).1.accel.y
        = (WDW.MPU6050.MPU6050).read.accel.y ∧
      (mpu6050_read (mpu6050_init m).1 (mpu6050_init m).2).1.accel.z
        = (WDW.MPU6050.MPU6050).read.accel.z ∧
      (mpu6050_read (mpu6050_init m).1 (mpu6050_init m).2).1.gyro.x
        = (WDW.MPU6050.MPU6050).read.gyro.x ∧
      (mpu6050_read (mpu6050_init m).1 (mpu6050_init m).2).1.gyro.y
        = (WDW.MPU6050.MPU6050).read.gyro.y ∧
      (mpu6050_read (mpu6050_init m).1 (mpu6050_init m).2).1.gyro.z
        = (WDW.MPU6050.MPU6050).read.gyro.z) ∧
    ((dht22_read (dht22_init pin m).1 (dht22_init pin m).2).1
        = (dht22_read (dht22_init pin2 m).1 (dht22_init pin2 m).2).1 ∧
      (WDW.DHT22.DHT22 pin).read = (WDW.DHT22.DHT22 pin2).read) :=
  ⟨⟨rfl, rfl⟩, ⟨rfl, rfl, rfl, rfl, rfl, rfl⟩, ⟨rfl, rfl⟩⟩

end WDWSensors
